import Mathlib

/-!
Shallow embedding of `src/Orange/widgets/regression/owmean.py`: the `OWMean`
widget class, its `__init__`, `set_data` and `apply` methods, its declared
input/output ports, and the panel state those methods act on.  The dataset
domain, the preprocessors and the fitted-model payload are kept abstract as
type parameters `Domain`, `Prep` and `Core`.
-/

/-- A tabular dataset (`Orange.data.Table`), observed by this widget only
through its `domain` attribute. -/
structure Table (Domain : Type) where
  domain : Domain

/-- A learner instance as `OWMean.apply` constructs it:
`LEARNER(preprocessors=self.preprocessors)` followed by
`learner.name = self.learner_name`. -/
structure MeanLearner (Prep : Type) where
  preprocessors : Option Prep
  name : String

/-- A fitted model (`MeanModel`); `apply` overwrites its `name` attribute
after fitting. -/
structure MeanModel (Core : Type) where
  name : String
  core : Core

/-- Modelled from the spec: the class-level behaviour of `MeanLearner`
(`check_learner_adequacy`, `learner_adequacy_err_msg`, fitting via
`learner(data)`) lives in `Orange.regression.mean`, which is not part of the
excerpt.  The spec calls a learner "a configuration object describing how to
fit a model to data" and a predictor "a fitted model instance produced by
applying a learner to a dataset", so the class is kept abstract: an adequacy
predicate on domains, an error message, and a fitting function. -/
structure MeanLearnerClass (Domain Core Prep : Type) where
  check_learner_adequacy : Domain → Bool
  learner_adequacy_err_msg : String
  fit : MeanLearner Prep → Table Domain → MeanModel Core

/-- A message published by `self.send(...)` on one of the widget's two
output channels. -/
inductive SendEvent (Core Prep : Type) where
  | learner (l : MeanLearner Prep)
  | predictor (p : Option (MeanModel Core))

/-- The widget's mutable state: the stored dataset reference, the
preprocessors, the `learner_name` setting, the slot-0 error text on the
panel, and the last value published on each output channel (`none` while
nothing has been sent yet). -/
structure OWMeanState (Domain Core Prep : Type) where
  data : Option (Table Domain)
  preprocessors : Option Prep
  learner_name : String
  error0 : Option String
  outLearner : Option (MeanLearner Prep)
  outPredictor : Option (Option (MeanModel Core))

/-- The learner freshly built at the top of `apply`:
`learner = self.LEARNER(preprocessors=self.preprocessors)` then
`learner.name = self.learner_name`. -/
def OWMean.freshLearner {Domain Core Prep : Type}
    (s : OWMeanState Domain Core Prep) : MeanLearner Prep :=
  { preprocessors := s.preprocessors, name := s.learner_name }

/-- The predictor value `apply` ends up sending: `None` when no data is
stored or the adequacy check fails, otherwise the model fitted by the fresh
learner with its `name` overwritten by the learner's name. -/
def OWMean.applyPredictor {Domain Core Prep : Type}
    (env : MeanLearnerClass Domain Core Prep)
    (s : OWMeanState Domain Core Prep) : Option (MeanModel Core) :=
  match s.data with
  | none => none
  | some d =>
    if !env.check_learner_adequacy d.domain then none
    else
      let m := env.fit (OWMean.freshLearner s) d
      some { m with name := (OWMean.freshLearner s).name }

/-- The slot-0 error text after `apply`: untouched when no data is stored;
otherwise `self.error(0)` clears it and the adequacy check may re-raise it
with `learner_adequacy_err_msg`. -/
def OWMean.applyError {Domain Core Prep : Type}
    (env : MeanLearnerClass Domain Core Prep)
    (s : OWMeanState Domain Core Prep) : Option String :=
  match s.data with
  | none => s.error0
  | some d =>
    if !env.check_learner_adequacy d.domain then
      some env.learner_adequacy_err_msg
    else none

/-- `OWMean.apply`: build a fresh learner, validate the stored data when
present, then `send("Learner", learner)` and `send("Predictor", predictor)`.
Returns the updated state together with the list of send events, in order. -/
def OWMean.applyStep {Domain Core Prep : Type}
    (env : MeanLearnerClass Domain Core Prep)
    (s : OWMeanState Domain Core Prep) :
    OWMeanState Domain Core Prep × List (SendEvent Core Prep) :=
  ({ s with
      error0 := OWMean.applyError env s,
      outLearner := some (OWMean.freshLearner s),
      outPredictor := some (OWMean.applyPredictor env s) },
   [SendEvent.learner (OWMean.freshLearner s),
    SendEvent.predictor (OWMean.applyPredictor env s)])

/-- `OWMean.set_data`: store the incoming dataset reference and re-run
`apply` only when it is not `None`. -/
def OWMean.set_data {Domain Core Prep : Type}
    (env : MeanLearnerClass Domain Core Prep)
    (s : OWMeanState Domain Core Prep) (d : Option (Table Domain)) :
    OWMeanState Domain Core Prep × List (SendEvent Core Prep) :=
  let s1 := { s with data := d }
  match d with
  | none => (s1, [])
  | some _ => OWMean.applyStep env s1

/-- The default of the `learner_name` setting:
`settings.Setting("Mean Learner")`. -/
def OWMean.learner_name_default : String := "Mean Learner"

/-- The field state `__init__` establishes before its final `self.apply()`
call: `self.data = None`, `self.preprocessors = None`, no error raised,
nothing sent yet; `nm` is the `learner_name` settings value. -/
def OWMean.initState {Domain Core Prep : Type} (nm : String) :
    OWMeanState Domain Core Prep :=
  { data := none, preprocessors := none, learner_name := nm,
    error0 := none, outLearner := none, outPredictor := none }

/-- `OWMean.__init__`: set up the fields and invoke `apply` once. -/
def OWMean.construct {Domain Core Prep : Type}
    (env : MeanLearnerClass Domain Core Prep) (nm : String) :
    OWMeanState Domain Core Prep × List (SendEvent Core Prep) :=
  OWMean.applyStep env (OWMean.initState nm)

/-- An externally triggered call on the widget: a `Data` signal delivered to
`set_data`, or a press of the `Apply` button (`callback=self.apply`). -/
inductive WidgetAction (Domain : Type) where
  | setData (d : Option (Table Domain))
  | applyButton

/-- One call on the widget. -/
def OWMean.step {Domain Core Prep : Type}
    (env : MeanLearnerClass Domain Core Prep)
    (s : OWMeanState Domain Core Prep) :
    WidgetAction Domain → OWMeanState Domain Core Prep × List (SendEvent Core Prep)
  | WidgetAction.setData d => OWMean.set_data env s d
  | WidgetAction.applyButton => OWMean.applyStep env s

/-- Run a sequence of `set_data` / `apply` calls from a state. -/
def OWMean.run {Domain Core Prep : Type}
    (env : MeanLearnerClass Domain Core Prep)
    (s : OWMeanState Domain Core Prep) :
    List (WidgetAction Domain) → OWMeanState Domain Core Prep
  | [] => s
  | a :: as => OWMean.run env (OWMean.step env s a).1 as

/-- The widget's declared input ports: a name, the accepted type, and the
handler method the host routes the signal to. -/
structure InputPort where
  name : String
  accepts : String
  handler : String
deriving DecidableEq

/-- The widget's declared output ports: a name and the published type. -/
structure OutputPort where
  name : String
  publishes : String
deriving DecidableEq

/-- Modelled from the spec: `OWProvidesLearner` (the mix-in base class) is
not part of the excerpt, and the spec's external-interface section names
only "an input accepting a tabular dataset, and two outputs publishing a
learner object and a fitted predictor object", so the port list the mix-in
contributes is modelled as empty. -/
def OWProvidesLearner.inputs : List InputPort := []

/-- `OWMean.inputs = [("Data", Table, "set_data")] + OWProvidesLearner.inputs`. -/
def OWMean.inputs : List InputPort :=
  [{ name := "Data", accepts := "Table", handler := "set_data" }] ++
    OWProvidesLearner.inputs

/-- `OWMean.outputs = [("Learner", LEARNER), ("Predictor", MeanModel)]`
with `LEARNER = MeanLearner`. -/
def OWMean.outputs : List OutputPort :=
  [{ name := "Learner", publishes := "MeanLearner" },
   { name := "Predictor", publishes := "MeanModel" }]

/-- A concrete environment whose adequacy check always accepts, for
exercising the theorems on explicit inputs. -/
def envAccept : MeanLearnerClass Unit Unit Unit :=
  { check_learner_adequacy := fun _ => true,
    learner_adequacy_err_msg := "inadequate data",
    fit := fun _ _ => { name := "", core := () } }

/-- A concrete environment whose adequacy check always rejects. -/
def envReject : MeanLearnerClass Unit Unit Unit :=
  { check_learner_adequacy := fun _ => false,
    learner_adequacy_err_msg := "inadequate data",
    fit := fun _ _ => { name := "", core := () } }

/-- A concrete widget state holding a dataset. -/
def sWithData : OWMeanState Unit Unit Unit :=
  { data := some { domain := () }, preprocessors := none,
    learner_name := "Mean Learner", error0 := none,
    outLearner := none, outPredictor := none }

/-- C1: when data is stored and the adequacy check rejects its domain,
`apply` raises `error(0, learner.learner_adequacy_err_msg)` on the panel and
sends `None` on the "Predictor" output. -/
theorem apply_inadequate_raises_error_and_no_predictor
    {Domain Core Prep : Type} (env : MeanLearnerClass Domain Core Prep)
    (s : OWMeanState Domain Core Prep) (d : Table Domain)
    (hd : s.data = some d)
    (hadq : env.check_learner_adequacy d.domain = false) :
    (OWMean.applyStep env s).1.error0 = some env.learner_adequacy_err_msg ∧
    (OWMean.applyStep env s).1.outPredictor = some none ∧
    (OWMean.applyStep env s).2 =
      [SendEvent.learner (OWMean.freshLearner s), SendEvent.predictor none] := by
  simp [OWMean.applyStep, OWMean.applyError, OWMean.applyPredictor, hd, hadq]

theorem apply_inadequate_witness :
    (OWMean.applyStep envReject sWithData).1.error0 =
      some envReject.learner_adequacy_err_msg ∧
    (OWMean.applyStep envReject sWithData).1.outPredictor = some none ∧
    (OWMean.applyStep envReject sWithData).2 =
      [SendEvent.learner (OWMean.freshLearner sWithData),
       SendEvent.predictor none] :=
  apply_inadequate_raises_error_and_no_predictor envReject sWithData
    { domain := () } rfl rfl

/-- C2: `apply` always publishes a freshly constructed learner on the
"Learner" output, whatever `data` holds and whatever adequacy says. -/
theorem apply_always_sends_fresh_learner
    {Domain Core Prep : Type} (env : MeanLearnerClass Domain Core Prep)
    (s : OWMeanState Domain Core Prep) :
    (OWMean.applyStep env s).1.outLearner =
      some { preprocessors := s.preprocessors, name := s.learner_name } ∧
    (OWMean.applyStep env s).2.head? =
      some (SendEvent.learner
        { preprocessors := s.preprocessors, name := s.learner_name }) :=
  ⟨rfl, rfl⟩

/-- C3 (amended): immediately after any `apply` invocation the "Predictor"
output is non-None only if `self.data` is non-None and the adequacy check
accepts its domain.  The original all-reachable-states form fails: see the
stale-predictor counterexample. -/
theorem apply_predictor_requires_adequate_data
    {Domain Core Prep : Type} (env : MeanLearnerClass Domain Core Prep)
    (s : OWMeanState Domain Core Prep) (m : MeanModel Core)
    (h : (OWMean.applyStep env s).1.outPredictor = some (some m)) :
    ∃ d, (OWMean.applyStep env s).1.data = some d ∧
      env.check_learner_adequacy d.domain = true := by
  cases hd : s.data with
  | none => simp [OWMean.applyStep, OWMean.applyPredictor, hd] at h
  | some d =>
    cases hc : env.check_learner_adequacy d.domain with
    | false => simp [OWMean.applyStep, OWMean.applyPredictor, hd, hc] at h
    | true => exact ⟨d, hd, hc⟩

theorem apply_predictor_requires_adequate_data_witness :
    ∃ d, (OWMean.applyStep envAccept sWithData).1.data = some d ∧
      envAccept.check_learner_adequacy d.domain = true :=
  apply_predictor_requires_adequate_data envAccept sWithData
    { name := "Mean Learner", core := () } rfl

/-- C3 counterexample: construct the widget, deliver a dataset via
`set_data`, then deliver `None`.  The reached state has `data = None` while
the last value published on "Predictor" is still a model, so the claimed
invariant over all states reachable by `set_data` and `apply` calls fails. -/
theorem stale_predictor_counterexample :
    (OWMean.run envAccept (OWMean.construct envAccept "Mean Learner").1
        [WidgetAction.setData (some { domain := () }),
         WidgetAction.setData none]).data = none ∧
    (OWMean.run envAccept (OWMean.construct envAccept "Mean Learner").1
        [WidgetAction.setData (some { domain := () }),
         WidgetAction.setData none]).outPredictor =
      some (some { name := "Mean Learner", core := () }) :=
  ⟨rfl, rfl⟩

/-- C4: with stored data whose domain the adequacy check accepts, `apply`
publishes on "Predictor" exactly the model obtained by applying the freshly
constructed learner to the stored data, its `name` then set to the learner's
name. -/
theorem apply_adequate_produces_predictor
    {Domain Core Prep : Type} (env : MeanLearnerClass Domain Core Prep)
    (s : OWMeanState Domain Core Prep) (d : Table Domain)
    (hd : s.data = some d)
    (hadq : env.check_learner_adequacy d.domain = true) :
    (OWMean.applyStep env s).1.outPredictor =
      some (some { env.fit (OWMean.freshLearner s) d with
                    name := (OWMean.freshLearner s).name }) ∧
    (OWMean.applyStep env s).2 =
      [SendEvent.learner (OWMean.freshLearner s),
       SendEvent.predictor
         (some { env.fit (OWMean.freshLearner s) d with
                  name := (OWMean.freshLearner s).name })] := by
  simp [OWMean.applyStep, OWMean.applyPredictor, hd, hadq]

theorem apply_adequate_produces_predictor_witness :
    (OWMean.applyStep envAccept sWithData).1.outPredictor =
      some (some { envAccept.fit (OWMean.freshLearner sWithData) { domain := () } with
                    name := (OWMean.freshLearner sWithData).name }) ∧
    (OWMean.applyStep envAccept sWithData).2 =
      [SendEvent.learner (OWMean.freshLearner sWithData),
       SendEvent.predictor
         (some { envAccept.fit (OWMean.freshLearner sWithData) { domain := () } with
                  name := (OWMean.freshLearner sWithData).name })] :=
  apply_adequate_produces_predictor envAccept sWithData { domain := () } rfl rfl

/-- C5: each `apply` invocation sends a learner built from the current
`preprocessors` and the current `learner_name` setting, and the sent learner
does not depend on any previously published learner or predictor. -/
theorem apply_recreates_learner_from_current_settings
    {Domain Core Prep : Type} (env : MeanLearnerClass Domain Core Prep)
    (s : OWMeanState Domain Core Prep) :
    (OWMean.applyStep env s).2.head? =
      some (SendEvent.learner
        { preprocessors := s.preprocessors, name := s.learner_name }) ∧
    ∀ lPrev pPrev,
      (OWMean.applyStep env
          { s with outLearner := lPrev, outPredictor := pPrev }).2.head? =
        (OWMean.applyStep env s).2.head? :=
  ⟨rfl, fun _ _ => rfl⟩

/-- C6: every `apply` invocation sends exactly two messages, one on
"Learner" and then one on "Predictor", and when data is present it
validates it: the slot-0 error after `apply` reflects the adequacy check. -/
theorem apply_sends_exactly_two_messages
    {Domain Core Prep : Type} (env : MeanLearnerClass Domain Core Prep)
    (s : OWMeanState Domain Core Prep) :
    (OWMean.applyStep env s).2.length = 2 ∧
    (OWMean.applyStep env s).2 =
      [SendEvent.learner (OWMean.freshLearner s),
       SendEvent.predictor (OWMean.applyPredictor env s)] ∧
    ∀ d, s.data = some d →
      (OWMean.applyStep env s).1.error0 =
        (if env.check_learner_adequacy d.domain then none
         else some env.learner_adequacy_err_msg) := by
  refine ⟨rfl, rfl, ?_⟩
  intro d hd
  cases hc : env.check_learner_adequacy d.domain <;>
    simp [OWMean.applyStep, OWMean.applyError, hd, hc]

theorem apply_sends_exactly_two_messages_witness :
    (OWMean.applyStep envAccept sWithData).1.error0 =
      (if envAccept.check_learner_adequacy
          (Table.domain { domain := () }) then none
       else some envAccept.learner_adequacy_err_msg) :=
  (apply_sends_exactly_two_messages envAccept sWithData).2.2 { domain := () } rfl

/-- C7: the declared ports are exactly the "Data" input routed to
`set_data` and the "Learner" and "Predictor" outputs. -/
theorem declared_ports_are_data_learner_predictor :
    OWMean.inputs =
      [{ name := "Data", accepts := "Table", handler := "set_data" }] ∧
    OWMean.outputs =
      [{ name := "Learner", publishes := "MeanLearner" },
       { name := "Predictor", publishes := "MeanModel" }] :=
  ⟨rfl, rfl⟩

/-- C8: `set_data(None)` stores `None` but does not invoke `apply`: no
message is sent and both published outputs are unchanged; `set_data` with a
dataset stores it and re-invokes `apply`. -/
theorem set_data_none_keeps_outputs
    {Domain Core Prep : Type} (env : MeanLearnerClass Domain Core Prep)
    (s : OWMeanState Domain Core Prep) :
    (OWMean.set_data env s none).1.data = none ∧
    (OWMean.set_data env s none).1.outLearner = s.outLearner ∧
    (OWMean.set_data env s none).1.outPredictor = s.outPredictor ∧
    (OWMean.set_data env s none).2 = [] ∧
    ∀ d, OWMean.set_data env s (some d) =
      OWMean.applyStep env { s with data := some d } :=
  ⟨rfl, rfl, rfl, rfl, fun _ => rfl⟩

/-- C9: when `apply` sends a non-None predictor, the predictor's name
equals the name of the learner sent in the same invocation, which equals
the current `learner_name` setting. -/
theorem predictor_name_matches_learner_name
    {Domain Core Prep : Type} (env : MeanLearnerClass Domain Core Prep)
    (s : OWMeanState Domain Core Prep)
    (l : MeanLearner Prep) (m : MeanModel Core)
    (h : (OWMean.applyStep env s).2 =
      [SendEvent.learner l, SendEvent.predictor (some m)]) :
    m.name = l.name ∧ l.name = s.learner_name := by
  simp [OWMean.applyStep] at h
  obtain ⟨hl, hp⟩ := h
  cases hd : s.data with
  | none => simp [OWMean.applyPredictor, hd] at hp
  | some d =>
    cases hc : env.check_learner_adequacy d.domain with
    | false => simp [OWMean.applyPredictor, hd, hc] at hp
    | true =>
      simp [OWMean.applyPredictor, OWMean.freshLearner, hd, hc] at hp
      simp [← hl, ← hp, OWMean.freshLearner]

theorem predictor_name_matches_learner_name_witness :
    ({ name := "Mean Learner", core := () } : MeanModel Unit).name =
      (OWMean.freshLearner sWithData).name ∧
    (OWMean.freshLearner sWithData).name = sWithData.learner_name :=
  predictor_name_matches_learner_name envAccept sWithData
    (OWMean.freshLearner sWithData) { name := "Mean Learner", core := () } rfl

/-- C10: `__init__` runs `apply` once on the freshly set-up state, in which
`data` and `preprocessors` are both `None`, so right after construction a
learner has been sent on "Learner" and `None` on "Predictor". -/
theorem construct_sends_learner_and_none
    {Domain Core Prep : Type} (env : MeanLearnerClass Domain Core Prep)
    (nm : String) :
    (OWMean.initState nm : OWMeanState Domain Core Prep).data = none ∧
    (OWMean.initState nm : OWMeanState Domain Core Prep).preprocessors = none ∧
    OWMean.construct env nm = OWMean.applyStep env (OWMean.initState nm) ∧
    (OWMean.construct env nm).1.outLearner =
      some { preprocessors := none, name := nm } ∧
    (OWMean.construct env nm).1.outPredictor = some none ∧
    (OWMean.construct env nm).2 =
      [SendEvent.learner { preprocessors := none, name := nm },
       SendEvent.predictor none] :=
  ⟨rfl, rfl, rfl, rfl, rfl, rfl⟩
